import Mathlib

/-!
Verification of the presenter state-management layer of the schema-driven
admin UI (`useListPresenter` in `src/unnamed/part_000`,
`useFormPresenter` / `validateForm` in `src/hooks/useFormPresenter.js`).

The JavaScript hooks are shallowly embedded: React's `setState` cell is
modelled by explicit state passing (each presenter operation is a function
from state to state), injected use cases are oracle functions returning
`Except`, and the user-visible side effects (toasts, dialogs, use-case
calls, navigation) are logged in an explicit event list.  Where React's
per-render snapshots are observable — the `loadMore` guard and the search
debounce, whose callbacks close over the state of the render that created
them — reads and writes are split: reads come from the captured render
snapshot, writes apply to the live cell (`loadDataRW`, `loadMoreTick`,
`keystroke`/`timerFire`).  JS numbers are modelled as integers (no claim
depends on fractional values); JS objects are ordered association lists
with spread-update semantics.
-/

namespace Arch

/-- JS values as far as the presenters inspect them.  `null` models JS
`null`; an absent key (JS `undefined`) is `Option.none` at lookup sites. -/
inductive Value where
  | str (s : String)
  | num (n : Int)
  | bool (b : Bool)
  | null
deriving Repr, DecidableEq

/-- A JS object: ordered field/value association list. -/
abbrev Rec := List (String × Value)

/-- Spread update `{...o, [f]: v}`: overwrite `f` in place if present, else append. -/
def setField : Rec → String → Value → Rec
  | [], f, v => [(f, v)]
  | (g, w) :: rest, f, v =>
      if g = f then (f, v) :: rest else (g, w) :: setField rest f v

/-- JS truthiness test on a value (`!value`). -/
def falsyV : Value → Bool
  | .str s => s = ""
  | .num n => n = 0
  | .bool b => !b
  | .null => true

/-- JS truthiness of a possibly-absent value (`undefined` is falsy). -/
def falsyO : Option Value → Bool
  | none => true
  | some v => falsyV v

/-- JS `Number(value)` coercion, `none` standing for `NaN`.  String
parsing is restricted to integer literals (claims never exercise
fractional coercion). -/
def toNumber : Value → Option Int
  | .num n => some n
  | .bool b => some (if b then 1 else 0)
  | .null => some 0
  | .str s => if s.trim = "" then some 0 else s.trim.toInt?

/-- JS `value.length` — only strings carry a length here. -/
def lengthOf : Value → Option Nat
  | .str s => some s.length
  | _ => none

/-- One field's declaration in a schema (`{type, required?, maxLength?,
min?, max?}`). -/
structure FieldConfig where
  ftype : String
  required : Bool := false
  maxLength : Option Int := none
  min : Option Int := none
  max : Option Int := none
deriving Repr, DecidableEq

/-- A collection schema. -/
structure Schema where
  collection : String
  fields : List (String × FieldConfig)
deriving Repr, DecidableEq

/-- The ambient context supplying schemas (`context.schemas`). -/
structure Context where
  schemas : List Schema
deriving Repr

/-- Route parameters (`params.collection`, `params.id`). -/
structure Params where
  collection : Option String := none
  id : Option String := none
deriving Repr

/-- Collection name from route params (`params?.collection || ""`). -/
def collName (params : Params) : String :=
  (params.collection.getD "")

/-! ### Schema-driven validator (`validateForm`, useFormPresenter.js 64–105) -/

/-- Line 79: `fieldConfig.required && (!value || value === "")` — the
`value === ""` disjunct is subsumed by falsiness. -/
def requiredFails (cfg : FieldConfig) (v : Option Value) : Bool :=
  cfg.required && falsyO v

/-- Line 84: `fieldConfig.type === "String" && fieldConfig.maxLength &&
value && value.length > fieldConfig.maxLength` (`maxLength` truthy means
present and non-zero; a value with no `.length` compares as `undefined >
m`, which is false). -/
def stringTooLong (cfg : FieldConfig) (v : Option Value) : Bool :=
  cfg.ftype = "String" &&
  (match cfg.maxLength with
   | some m =>
      m ≠ 0 && !falsyO v &&
      (match v with
       | some w =>
          (match lengthOf w with
           | some l => (l : Int) > m
           | none => false)
       | none => false)
   | none => false)

/-- Line 89 guard: `fieldConfig.type === "Number" && value !== undefined
&& value !== null`. -/
def numberApplies (cfg : FieldConfig) (v : Option Value) : Bool :=
  cfg.ftype = "Number" &&
  (match v with
   | some .null => false
   | some _ => true
   | none => false)

/-- The error (if any) recorded for one schema field, rules applied in
source order with later assignments overwriting earlier ones. -/
def fieldError (fname : String) (cfg : FieldConfig) (v : Option Value) :
    Option String :=
  let e1 : Option String :=
    if requiredFails cfg v then some (fname ++ " is required") else none
  let e2 : Option String :=
    if stringTooLong cfg v then
      some (fname ++ " must be less than " ++
            toString (cfg.maxLength.getD 0) ++ " characters")
    else e1
  if numberApplies cfg v then
    match (v.map toNumber).join with
    | none => some (fname ++ " must be a valid number")
    | some n =>
        match cfg.min with
        | some m =>
            if n < m then some (fname ++ " must be at least " ++ toString m)
            else
              match cfg.max with
              | some M =>
                  if n > M then
                    some (fname ++ " must be at most " ++ toString M)
                  else e2
              | none => e2
        | none =>
            match cfg.max with
            | some M =>
                if n > M then some (fname ++ " must be at most " ++ toString M)
                else e2
            | none => e2
  else e2

/-- Iteration `Object.entries(fields).forEach(...)` accumulating `errors`. -/
def validateFields (fields : List (String × FieldConfig)) (obj : Rec) :
    List (String × String) :=
  match fields with
  | [] => []
  | (fname, cfg) :: rest =>
      match fieldError fname cfg (obj.lookup fname) with
      | some msg => (fname, msg) :: validateFields rest obj
      | none => validateFields rest obj

structure ValidationResult where
  isValid : Bool
  errors : List (String × String)
deriving Repr, DecidableEq

/-- Validator entry point `validateForm` (useFormPresenter.js 64–105): looks up the collection's
schema; no schema ⇒ permissive `{isValid:true, errors:{}}`. -/
def validateForm (ctx : Context) (coll : String) (obj : Rec) :
    ValidationResult :=
  match ctx.schemas.find? (fun s => s.collection = coll) with
  | none => ⟨true, []⟩
  | some schema =>
      let errors := validateFields schema.fields obj
      ⟨errors.isEmpty, errors⟩

/-! ### Events: the logged side effects of presenter operations -/

/-- One observable side effect of a presenter operation: a use-case call,
a toast/dialog/error surface, a navigation, or an internal `reset()` /
`loadData()` invocation mark. -/
inductive Event where
  | toast (msg sev : String)
  | confirmShown (msg : String)
  | errorShown
  | findCall (coll : String)
  | countCall (coll : String)
  | deleteCall (coll : String) (id : Value)
  | getCall (coll id : String)
  | upsertCall (coll : String) (payload : Rec)
  | navigateTo (path : String)
  | resetMark
  | loadDataCall (search : String)
deriving Repr, DecidableEq

/-- The search values of the `loadData` invocations recorded in an event
log. -/
def loadCalls (evs : List Event) : List String :=
  evs.filterMap (fun e =>
    match e with
    | Event.loadDataCall s => some s
    | _ => none)

/-! ### List presenter (`useListPresenter`, src/unnamed/part_000) -/

/-- The list presenter's state cell (part_000 lines 14–24). -/
structure ListState where
  loading : Bool
  objects : List Rec
  selected : List Value
  count : Int
  current : Int
  limit : Int
  search : String
  filters : Rec
  sort : Rec
deriving Repr, DecidableEq

/-- Initial list state (part_000 lines 14–24). -/
def initialListState : ListState :=
  { loading := true, objects := [], selected := [], count := 0,
    current := 1, limit := 20, search := "", filters := [],
    sort := [("created", Value.num (-1))] }

/-- A where clause: either the plain filter map, or the quick-search
`$or` of case-insensitive regexes over string fields merged with the
filters. -/
inductive WhereClause where
  | plain (filters : Rec)
  | searchOr (orFields : List (String × String)) (filters : Rec)
deriving Repr, DecidableEq

/-- The collection query handed to the find use case. -/
structure Query where
  whereC : WhereClause
  limit : Int
  skip : Int
  sort : Rec
deriving Repr, DecidableEq

/-- Search condition builder `buildWhere` (part_000 lines 36–49): blank search ⇒ `{...filters}`;
otherwise an `$or` of `{f: {$regex: search, $options:"i"}}` over the
schema's string-typed fields, merged with the filters. -/
def buildWhere (ctx : Context) (coll : String) (s : ListState) :
    WhereClause :=
  if s.search.trim = "" then .plain s.filters
  else
    let schema := ctx.schemas.find? (fun sc => sc.collection = coll)
    let fields :=
      ((schema.map Schema.fields).getD []).filterMap
        (fun p => if p.2.ftype = "String" then some (p.1, s.search) else none)
    .searchOr fields s.filters

/-- The injected use cases, as result oracles. -/
structure UseCases where
  find : String → Query → Except String (List Rec)
  count : String → WhereClause → Except String Int
  del : String → Value → Except String Unit
  getObj : String → String → Except String Rec
  upsert : String → Rec → Except String Rec

/-- List page load `loadData` (part_000 lines 51–76), run-to-completion,
with React's closure semantics made explicit: every state READ — the
`{current, limit, sort}` destructuring, `state.objects` in the success
update, and `buildWhere`'s `search`/`filters` — comes from `snap`, the
render snapshot captured by the `useCallback` closure that is running,
while the `setStatePartial` WRITES apply to the live cell `live`
(`loading` is set for the duration and cleared on every exit path; on
success the fetched page is appended — `[...state.objects, ...objects]`,
with no `current == 1` branch — and the count stored; on failure the
error is shown). -/
def loadDataRW (uc : UseCases) (ctx : Context) (params : Params)
    (snap live : ListState) : ListState × List Event :=
  let coll := collName params
  let w := buildWhere ctx coll snap
  let q : Query := ⟨w, snap.limit, (snap.current - 1) * snap.limit, snap.sort⟩
  match uc.find coll q with
  | .error _ =>
      ({ live with loading := false },
       [Event.loadDataCall snap.search, Event.findCall coll,
        Event.errorShown])
  | .ok objs =>
      match uc.count coll w with
      | .error _ =>
          ({ live with loading := false },
           [Event.loadDataCall snap.search, Event.findCall coll,
            Event.countCall coll, Event.errorShown])
      | .ok c =>
          ({ live with objects := snap.objects ++ objs, count := c,
                       loading := false },
           [Event.loadDataCall snap.search, Event.findCall coll,
            Event.countCall coll])

/-- A `loadData` call whose closure is from the render showing the
current committed state: snapshot and live cell coincide (the diagonal
of `loadDataRW`). -/
def loadData (uc : UseCases) (ctx : Context) (params : Params)
    (s : ListState) : ListState × List Event :=
  loadDataRW uc ctx params s s

/-- State reset `reset` (part_000 lines 85–92). -/
def resetList (s : ListState) : ListState :=
  { s with current := 1, objects := [], selected := [] }

/-- One `loadMore` call (part_000 lines 78–83) up to `loadData`'s first
await, under React's render-snapshot semantics: the guard
`if (!state.loading)`, the `state.current` read of the increment and
`loadData`'s reads all use `snap` — the state of the render whose
closures are running — while `setStatePartial`'s write of `current` and
`loadData`'s synchronous `setStatePartial({loading: true})` land on the
live cell.  React queues state updates, so nothing run in the same tick
ever sees them through `snap`.  The second component counts page-fetch
requests issued. -/
def loadMoreTick (snap cell : ListState) : ListState × Nat :=
  if snap.loading then (cell, 0)
  else ({ cell with current := snap.current + 1, loading := true }, 1)

/-- Running `n` `loadMore` calls synchronously in one tick: all of them
run the closures of the same render, so they share one snapshot, while
their writes accumulate on the live cell. -/
def runLoadMoresTick : Nat → ListState → ListState → ListState × Nat
  | 0, _, cell => (cell, 0)
  | n + 1, snap, cell =>
      let p := loadMoreTick snap cell
      let q := runLoadMoresTick n snap p.1
      (q.1, p.2 + q.2)

/-- The sequential bulk-delete loop (part_000 lines 143–145): one awaited
delete call per selected id, aborted by the first failure. -/
def runDeletes (uc : UseCases) (coll : String) :
    List Value → List Event × Option String
  | [] => ([], none)
  | id :: rest =>
      match uc.del coll id with
      | .ok _ =>
          let r := runDeletes uc coll rest
          (Event.deleteCall coll id :: r.1, r.2)
      | .error e => ([Event.deleteCall coll id], some e)

/-- Bulk delete `handleBulkDelete` (part_000 lines 126–153).  `confirm` is the
resolution of the confirm dialog. -/
def handleBulkDelete (uc : UseCases) (ctx : Context) (params : Params)
    (confirm : Bool) (s : ListState) : ListState × List Event :=
  if s.selected.length = 0 then
    (s, [Event.toast "No items selected" "warning"])
  else
    let msg := "Are you sure you want to delete " ++
               toString s.selected.length ++ " selected items?"
    if confirm then
      let r := runDeletes uc (collName params) s.selected
      match r.2 with
      | none =>
          let l := loadData uc ctx params (resetList s)
          (l.1, Event.confirmShown msg :: r.1 ++
               [Event.toast (toString s.selected.length ++
                             " items deleted successfully") "success",
                Event.resetMark] ++ l.2)
      | some _ =>
          (s, Event.confirmShown msg :: r.1 ++ [Event.errorShown])
    else (s, [Event.confirmShown msg])

/-! ### Search debouncing (`handleSearchChange`, part_000 lines 94–103)

The single timeout slot (`searchTimeoutRef`) is a live ref, so
`clearTimeout` + `setTimeout` become overwriting one optional entry.  The
timeout CALLBACK, however, is a closure: the `reset`/`loadData` it runs
are the `useCallback` values of the render in which `handleSearchChange`
executed, and that render's `state.search` still holds the value from
BEFORE the keystroke being handled — the slot therefore stores the
deadline together with the captured render snapshot.  Keystrokes also
reload eagerly: committing `search` gives `state`, hence the memoized
`loadData`, a new identity, and `useEffect(() => loadData(), [loadData])`
(part_000 lines 155–157) re-runs it against the fresh snapshot. -/

/-- Committed list state plus the pending timeout: its fire deadline and
the render snapshot captured by its `reset`/`loadData` closures. -/
structure ReactSearch where
  cell : ListState
  timer : Option (Nat × ListState)
deriving Repr

/-- One keystroke at wall time `t` (part_000 lines 94–103 plus the
reload effect at lines 155–157): `handleSearchChange` clears the pending
timeout, commits `search := v`, and schedules a timeout capturing the
CURRENT render's snapshot `m.cell` (whose `search` is still the previous
value); the commit then re-fires the `[loadData]` effect, running
`loadData` with the fresh post-commit snapshot.  The loads that this
load's own state commits re-trigger in the source are not modelled, so
the event log is a lower bound on the `loadData` calls the source
issues. -/
def keystroke (uc : UseCases) (ctx : Context) (params : Params)
    (t : Nat) (v : String) (m : ReactSearch) : ReactSearch × List Event :=
  let snap := m.cell
  let committed := { m.cell with search := v }
  let l := loadDataRW uc ctx params committed committed
  ({ cell := l.1, timer := some (t + 500, snap) }, l.2)

/-- The timeout callback, checked at wall time `T`: if due, it runs
`reset()` — a functional `setState(prev => ...)` update, applied to the
live cell — then the captured `loadData`, which READS the snapshot taken
at scheduling time (so its query carries that snapshot's `search`) while
its writes land on the live cell. -/
def timerFire (uc : UseCases) (ctx : Context) (params : Params)
    (T : Nat) (m : ReactSearch) : ReactSearch × List Event :=
  match m.timer with
  | some (d, snap) =>
      if d ≤ T then
        let l := loadDataRW uc ctx params snap (resetList m.cell)
        (⟨l.1, none⟩, Event.resetMark :: l.2)
      else (m, [])
  | none => (m, [])

/-- Process a time-stamped sequence of keystrokes, firing any timeout
that comes due before each one. -/
def runKeystrokes (uc : UseCases) (ctx : Context) (params : Params) :
    List (Nat × String) → ReactSearch → ReactSearch × List Event
  | [], m => (m, [])
  | (t, v) :: rest, m =>
      let f := timerFire uc ctx params t m
      let p := keystroke uc ctx params t v f.1
      let q := runKeystrokes uc ctx params rest p.1
      (q.1, f.2 ++ p.2 ++ q.2)

/-- Calls ordered in time with each consecutive gap under 500ms. -/
def wellSpaced : List (Nat × String) → Bool
  | [] => true
  | [_] => true
  | (t1, _) :: (t2, v2) :: rest =>
      t1 ≤ t2 && t2 < t1 + 500 && wellSpaced ((t2, v2) :: rest)

/-- The last call of a nonempty call sequence. -/
def lastCall : (Nat × String) → List (Nat × String) → Nat × String
  | c, [] => c
  | _, c :: rest => lastCall c rest

/-- The `search` value committed when the last call of a burst runs —
the second-to-last value typed, or `s0` for a one-keystroke burst.  This
is the value the last keystroke's timeout closure captures. -/
def beforeLast (s0 : String) : List (Nat × String) → String
  | [] => s0
  | (_, v) :: rest => if rest.isEmpty then s0 else beforeLast v rest

/-! ### Form presenter (`useFormPresenter`, src/hooks/useFormPresenter.js) -/

/-- The form presenter's state cell (useFormPresenter.js lines 14–21). -/
structure FormState where
  loading : Bool
  object : Rec
  change : Rec
  advanced : Bool
  dirty : Bool
  submitting : Bool
deriving Repr, DecidableEq

/-- Initial form state (useFormPresenter.js lines 14–21). -/
def initialFormState : FormState :=
  { loading := true, object := [], change := [], advanced := false,
    dirty := false, submitting := false }

/-- Form load `loadData` of the form presenter (useFormPresenter.js lines 31–50):
fetches the object when the route id is truthy and not `"new"`. -/
def formLoadData (uc : UseCases) (params : Params) (s : FormState) :
    FormState × List Event :=
  match params.id with
  | some id =>
      if id ≠ "" ∧ id ≠ "new" then
        match uc.getObj (collName params) id with
        | .ok obj =>
            ({ s with object := obj, loading := false },
             [Event.getCall (collName params) id])
        | .error _ =>
            ({ s with loading := false },
             [Event.getCall (collName params) id, Event.errorShown])
      else ({ s with loading := false }, [])
  | none => ({ s with loading := false }, [])

/-- Field edit `handleFieldChange` (useFormPresenter.js lines 52–62): records the
value in both `change` and `object` and sets `dirty := true`
unconditionally — no comparison against any original snapshot. -/
def handleFieldChange (f : String) (v : Value) (s : FormState) :
    FormState :=
  { s with object := setField s.object f v,
           change := setField s.change f v,
           dirty := true }

/-- Submit handler `handleSubmit` (useFormPresenter.js lines 107–134): re-entrancy guard
on `submitting`; validation gate; then the upsert use case is called with
the full `state.object` on both the create and the edit path.  On success
`dirty` is cleared (but `change` is not) and the create path navigates to
the new record's edit route. -/
def handleSubmit (uc : UseCases) (ctx : Context) (params : Params)
    (s : FormState) : FormState × List Event :=
  if s.submitting then (s, [])
  else
    let validation := validateForm ctx (collName params) s.object
    if !validation.isValid then
      (s, [Event.toast "Please fix validation errors" "error"])
    else
      let coll := collName params
      match uc.upsert coll s.object with
      | .ok result =>
          let navEvs :=
            if params.id = some "new" then
              [Event.navigateTo ("/collections/" ++ coll ++ "/form/" ++
                (match result.lookup "id" with
                 | some (.str i) => i
                 | _ => ""))]
            else []
          ({ s with dirty := false, submitting := false },
           Event.upsertCall coll s.object ::
             Event.toast "Data saved successfully" "success" :: navEvs)
      | .error _ =>
          ({ s with submitting := false },
           [Event.upsertCall coll s.object, Event.errorShown])

/-- The FormState invariant claimed by the spec: `dirty` iff the change
map is non-empty. -/
def formInv (s : FormState) : Prop :=
  s.dirty = !s.change.isEmpty

/-! ### Concrete fixtures used by the claim theorems and witnesses -/

/-- Route parameters of an edit page for the `users` collection. -/
def editParams : Params := { collection := some "users", id := some "42" }

/-- Use cases whose calls all succeed: find returns one record, count 7,
upsert echoes its payload. -/
def okUC : UseCases :=
  { find := fun _ _ => .ok [[("id", Value.str "r1")]],
    count := fun _ _ => .ok 7,
    del := fun _ _ => .ok (),
    getObj := fun _ _ => .ok [("id", Value.str "42"), ("name", Value.str "Old")],
    upsert := fun _ o => .ok o }

/-- Use cases whose delete fails on id `2` and whose upsert always
fails. -/
def failUC : UseCases :=
  { find := fun _ _ => .ok [],
    count := fun _ _ => .ok 0,
    del := fun _ id => if id = Value.num 2 then .error "boom" else .ok (),
    getObj := fun _ _ => .error "missing",
    upsert := fun _ _ => .error "boom" }

/-- List state after a first page-1 load: one record materialized,
`current` still 1, not loading. -/
def c1State : ListState :=
  { initialListState with
    loading := false
    objects := [[("id", Value.str "r0")]] }

/-- Form state freshly loaded with `{name :"Old"}` — `object` equals the
loaded snapshot and `change` is empty. -/
def c3Loaded : FormState :=
  { initialFormState with
    loading := false
    object := [("name", Value.str "Old")] }

/-- Form state loaded with three fields for the edit-flow scenario. -/
def c2Loaded : FormState :=
  { initialFormState with
    loading := false
    object := [("id", Value.str "42"), ("name", Value.str "Old"),
               ("extra", Value.str "E")] }

/-- The edit-flow state after the user changes `name` to `"New"`. -/
def c2Edited : FormState := handleFieldChange "name" (Value.str "New") c2Loaded

/-- Form state loaded with `{id:"42", name:"Old"}`. -/
def c4Loaded : FormState :=
  { initialFormState with
    loading := false
    object := [("id", Value.str "42"), ("name", Value.str "Old")] }

/-- The state after editing `name` then submitting successfully. -/
def c4AfterSubmit : FormState :=
  (handleSubmit okUC ⟨[]⟩ editParams
    (handleFieldChange "name" (Value.str "New") c4Loaded)).1

/-- A schema declaring a single required string field `name` for the
`users` collection. -/
def usersSchema : Schema :=
  ⟨"users", [("name", { ftype := "String", required := true })]⟩

/-- List state with three selected ids for the bulk-delete scenario. -/
def bulkState : ListState :=
  { initialListState with
    loading := false
    selected := [Value.num 1, Value.num 2, Value.num 3] }

/-- Idle list state: initial load finished, nothing in flight. -/
def lmIdle : ListState := { initialListState with loading := false }

/-- Debounce machine at rest: committed idle state, no pending timeout. -/
def reactIdle : ReactSearch := ⟨lmIdle, none⟩

/-- Three keystrokes typing `"foo"`, 100ms and 200ms apart. -/
def burst3 : List (Nat × String) := [(0, "f"), (100, "fo"), (300, "foo")]

/-! ### Claim theorems -/

/-- C1: the claim says a successful `loadData` with `current == 1`
REPLACES `objects` with the fetched page.  Evaluating the code at a state
with `current = 1` and one already-materialized record shows the fetched
page is appended — `objects` ends as both records, not just the fetched
one — while `count` is updated as claimed.  The code's
`objects: [...state.objects, ...objects]` has no `current == 1` branch,
contradicting both the spec and the repository's own architecture
reference (`claude_architecture.md`, whose `loadData` replaces on page
1). -/
theorem c1_loadData_page1_appends :
    c1State.current = 1 ∧
    (loadData okUC ⟨[]⟩ editParams c1State).1.objects =
      [[("id", Value.str "r0")], [("id", Value.str "r1")]] ∧
    ([[("id", Value.str "r0")], [("id", Value.str "r1")]] :
        List Rec) ≠ [[("id", Value.str "r1")]] ∧
    (loadData okUC ⟨[]⟩ editParams c1State).1.count = 7 := by
  refine ⟨rfl, rfl, ?_, rfl⟩
  decide

/-- C2: the claim says an edit-flow `handleSubmit` calls the upsert use
case with exactly `{id, ...change}`.  Evaluating the code on a loaded
object `{id:"42", name:"Old", extra:"E"}` after changing `name` to
`"New"` shows the upsert is called with the FULL object (including the
untouched `extra` field), not with `{id, ...change}`: line 121 of
useFormPresenter.js always passes `state.object`. -/
theorem c2_submit_sends_full_object :
    c2Edited.change = [("name", Value.str "New")] ∧
    (handleSubmit okUC ⟨[]⟩ editParams c2Edited).2 =
      [Event.upsertCall "users"
        [("id", Value.str "42"), ("name", Value.str "New"),
         ("extra", Value.str "E")],
       Event.toast "Data saved successfully" "success"] ∧
    ([("id", Value.str "42"), ("name", Value.str "New"),
      ("extra", Value.str "E")] : Rec) ≠
      [("id", Value.str "42"), ("name", Value.str "New")] := by
  refine ⟨rfl, rfl, ?_⟩
  decide

/-- C3: the claim says `dirty` is recomputed by structural comparison
against the original snapshot, so writing a field's original value back
leaves `dirty` false.  Evaluating the code: from a freshly loaded state
(object `{name:"Old"}`, the snapshot), `handleFieldChange("name","Old")`
leaves the object structurally identical to the snapshot yet sets
`dirty = true` — lines 52–62 set `dirty: true` unconditionally and keep
no snapshot at all (the repository's architecture reference computes the
structural diff the claim describes). -/
theorem c3_revert_keeps_dirty :
    (handleFieldChange "name" (Value.str "Old") c3Loaded).object =
      c3Loaded.object ∧
    (handleFieldChange "name" (Value.str "Old") c3Loaded).change =
      [("name", Value.str "Old")] ∧
    (handleFieldChange "name" (Value.str "Old") c3Loaded).dirty = true :=
  ⟨rfl, rfl, rfl⟩

/-- C4 counterexample: the invariant `dirty == (change nonempty)` holds
after editing, but a successful `handleSubmit` clears `dirty` while
leaving `change` untouched (line 123 sets only
`{dirty:false, submitting:false}`), so the claimed invariant fails on
that mutation path. -/
theorem c4_counterexample :
    formInv (handleFieldChange "name" (Value.str "New") c4Loaded) ∧
    c4AfterSubmit.dirty = false ∧
    c4AfterSubmit.change = [("name", Value.str "New")] ∧
    ¬ formInv c4AfterSubmit := by
  refine ⟨rfl, rfl, rfl, ?_⟩
  show ¬ (c4AfterSubmit.dirty = !c4AfterSubmit.change.isEmpty)
  decide

/-- C10: `handleBulkDelete` with an empty selection shows the warning
toast and returns at once: no confirm dialog, no delete call, and the
state is returned unchanged. -/
theorem c10_bulkDelete_empty_selection (uc : UseCases) (ctx : Context)
    (params : Params) (confirm : Bool) (s : ListState)
    (h : s.selected = []) :
    handleBulkDelete uc ctx params confirm s =
      (s, [Event.toast "No items selected" "warning"]) := by
  simp [handleBulkDelete, h]

/-- Witness for C10 at the fresh list state. -/
theorem c10_bulkDelete_empty_selection_witness :
    initialListState.selected = [] ∧
    handleBulkDelete okUC ⟨[]⟩ editParams true initialListState =
      (initialListState, [Event.toast "No items selected" "warning"]) :=
  ⟨rfl, c10_bulkDelete_empty_selection okUC ⟨[]⟩ editParams true
    initialListState rfl⟩

/-- C6 counterexample: the claim says two `loadMore` calls made
synchronously while a load is in flight after the first produce exactly
one additional page fetch.  In the source both same-tick calls run the
closures of one render and read the same snapshot with
`state.loading === false` — `setStatePartial({loading: true})` is queued
by React, never visible through that snapshot — so the second call is
NOT dropped: two fetches are issued, not one (both writing the same
stale `snap.current + 1`). -/
theorem c6_counterexample :
    lmIdle.loading = false ∧
    (runLoadMoresTick 2 lmIdle lmIdle).2 = 2 ∧
    ¬ (runLoadMoresTick 2 lmIdle lmIdle).2 = 1 := by
  refine ⟨rfl, rfl, ?_⟩
  decide

/-- C6 amended: `loadMore`'s guard reads its render snapshot — a call
whose snapshot shows `loading = true` is dropped with no state change
and no fetch; a call whose snapshot shows `loading = false` writes
`current := snap.current + 1` and issues one fetch.  But two calls in
the same tick share one snapshot with `loading = false`, so BOTH issue a
fetch (two fetches, with `current` still advancing only once, since both
write the same `snap.current + 1`); the at-most-one-in-flight guarantee
only holds against calls whose render has committed `loading = true`. -/
theorem c6_loadMore_snapshot_guard (snap cell : ListState) :
    (snap.loading = true → loadMoreTick snap cell = (cell, 0)) ∧
    (snap.loading = false →
      (loadMoreTick snap cell).1.current = snap.current + 1 ∧
      (loadMoreTick snap cell).1.loading = true ∧
      (loadMoreTick snap cell).2 = 1 ∧
      (runLoadMoresTick 2 snap cell).2 = 2 ∧
      (runLoadMoresTick 2 snap cell).1.current = snap.current + 1) := by
  constructor
  · intro h
    simp [loadMoreTick, h]
  · intro h
    simp [loadMoreTick, runLoadMoresTick, h]

/-- Witness for C6 amended: from an idle render snapshot two same-tick
calls issue two fetches while `current` advances once; a call whose
snapshot shows loading is dropped. -/
theorem c6_loadMore_snapshot_guard_witness :
    loadMoreTick initialListState initialListState =
      (initialListState, 0) ∧
    (runLoadMoresTick 2 lmIdle lmIdle).2 = 2 ∧
    (runLoadMoresTick 2 lmIdle lmIdle).1.current = lmIdle.current + 1 :=
  ⟨(c6_loadMore_snapshot_guard initialListState initialListState).1 rfl,
   (((c6_loadMore_snapshot_guard lmIdle lmIdle).2 rfl)).2.2.2.1,
   (((c6_loadMore_snapshot_guard lmIdle lmIdle).2 rfl)).2.2.2.2⟩

/-- Helper: once the required rule has fired, the later rules can only
overwrite the recorded message, never remove it, so the field keeps some
error. -/
theorem fieldError_isSome_of_required (fname : String) (cfg : FieldConfig)
    (v : Option Value) (h : requiredFails cfg v = true) :
    (fieldError fname cfg v).isSome = true := by
  unfold fieldError
  simp only [h, if_true]
  split
  · split
    · simp
    · (repeat' split) <;> simp
  · split <;> simp

/-- C7: validating the empty object against a schema declaring one
required string field `name` yields `isValid = false` with a non-empty
message under `name`; when no schema matches the collection the result is
the permissive `{isValid:true, errors:{}}`. -/
theorem c7_validate_required_and_permissive :
    (∀ coll fname : String,
      validateForm ⟨[⟨coll, [(fname, { ftype := "String", required := true })]⟩]⟩
          coll [] =
        ⟨false, [(fname, fname ++ " is required")]⟩ ∧
      (fname ++ " is required") ≠ "") ∧
    (∀ (ctx : Context) (coll : String) (obj : Rec),
      ctx.schemas.find? (fun sc => sc.collection = coll) = none →
      validateForm ctx coll obj = ⟨true, []⟩) := by
  constructor
  · intro coll fname
    constructor
    · simp [validateForm, List.find?, validateFields, fieldError,
            requiredFails, stringTooLong, numberApplies, falsyO]
    · intro h
      have hl := congrArg String.length h
      simp [String.length_append] at hl
      exact absurd hl.2 (by decide)
  · intro ctx coll obj h
    simp [validateForm, h]

/-- Witness for C7 at the `users` collection. -/
theorem c7_validate_required_and_permissive_witness :
    validateForm ⟨[usersSchema]⟩ "users" [] =
      ⟨false, [("name", "name is required")]⟩ ∧
    validateForm ⟨[]⟩ "users" [] = ⟨true, []⟩ :=
  ⟨(c7_validate_required_and_permissive.1 "users" "name").1,
   c7_validate_required_and_permissive.2 ⟨[]⟩ "users" [] rfl⟩

/-- C9: the required rule is a JS falsiness test, so the number `0` and
the boolean `false` count as absent: for a schema whose sole field is
required, an object carrying `0` or `false` there fails the required
guard and `validateForm` reports an error for that field with
`isValid = false`. -/
theorem c9_required_treats_falsy_as_absent (ctx : Context)
    (coll fname : String) (cfg : FieldConfig) (obj : Rec) (sch : Schema)
    (hs : ctx.schemas.find? (fun sc => sc.collection = coll) = some sch)
    (hf : sch.fields = [(fname, cfg)])
    (hreq : cfg.required = true)
    (hv : obj.lookup fname = some (Value.num 0) ∨
          obj.lookup fname = some (Value.bool false)) :
    requiredFails cfg (obj.lookup fname) = true ∧
    (validateForm ctx coll obj).isValid = false ∧
    (validateForm ctx coll obj).errors.lookup fname ≠ none := by
  have hrf : requiredFails cfg (obj.lookup fname) = true := by
    rcases hv with h | h <;> simp [requiredFails, hreq, falsyO, falsyV, h]
  refine ⟨hrf, ?_⟩
  have hsome := fieldError_isSome_of_required fname cfg (obj.lookup fname) hrf
  obtain ⟨msg, hmsg⟩ := Option.isSome_iff_exists.mp hsome
  simp [validateForm, hs, validateFields, hf, hmsg, List.lookup]

/-- Witness for C9: `{name: 0}` and `{name: false}` against a schema
requiring `name`. -/
theorem c9_required_treats_falsy_as_absent_witness :
    (validateForm ⟨[usersSchema]⟩ "users" [("name", Value.num 0)]).isValid
      = false ∧
    (validateForm ⟨[usersSchema]⟩ "users"
      [("name", Value.bool false)]).isValid = false := by
  refine ⟨?_, ?_⟩
  · exact (c9_required_treats_falsy_as_absent ⟨[usersSchema]⟩ "users"
      "name" { ftype := "String", required := true }
      [("name", Value.num 0)] usersSchema rfl rfl rfl (Or.inl rfl)).2.1
  · exact (c9_required_treats_falsy_as_absent ⟨[usersSchema]⟩ "users"
      "name" { ftype := "String", required := true }
      [("name", Value.bool false)] usersSchema rfl rfl rfl
      (Or.inr rfl)).2.1

/-- Helper: the sequential delete loop over `good ++ bad :: rest`, where
every id in `good` deletes fine and `bad` fails, issues exactly the calls
for `good` and `bad` (in order) and stops with the error. -/
theorem runDeletes_fail (uc : UseCases) (coll : String) (e : String)
    (bad : Value) (rest : List Value) :
    ∀ good : List Value,
      (∀ id ∈ good, uc.del coll id = .ok ()) →
      uc.del coll bad = .error e →
      runDeletes uc coll (good ++ bad :: rest) =
        ((good ++ [bad]).map (Event.deleteCall coll), some e) := by
  intro good
  induction good with
  | nil =>
      intro _ hbad
      simp [runDeletes, hbad]
  | cons g gs ih =>
      intro hgood hbad
      have hg : uc.del coll g = .ok () := hgood g (by simp)
      have hrec := ih (fun id hid => hgood id (by simp [hid])) hbad
      simp [runDeletes, hg, hrec]

/-- C8: a confirmed bulk delete whose delete use case succeeds on the
first `k-1 = good.length` ids and fails on the next one issues exactly
those `k` sequential delete calls, surfaces exactly one error, leaves the
state (hence the non-empty selection) untouched, and invokes neither
`reset()` nor `loadData()`. -/
theorem c8_bulkDelete_midfail (uc : UseCases) (ctx : Context)
    (params : Params) (s : ListState) (good : List Value) (bad : Value)
    (rest : List Value) (e : String)
    (hsel : s.selected = good ++ bad :: rest)
    (_hk : good ≠ [])
    (hgood : ∀ id ∈ good, uc.del (collName params) id = .ok ())
    (hbad : uc.del (collName params) bad = .error e) :
    (handleBulkDelete uc ctx params true s).1 = s ∧
    (handleBulkDelete uc ctx params true s).1.selected ≠ [] ∧
    (handleBulkDelete uc ctx params true s).2 =
      Event.confirmShown ("Are you sure you want to delete " ++
          toString s.selected.length ++ " selected items?") ::
        (good ++ [bad]).map (Event.deleteCall (collName params)) ++
        [Event.errorShown] ∧
    (handleBulkDelete uc ctx params true s).2.count Event.errorShown = 1 ∧
    Event.resetMark ∉ (handleBulkDelete uc ctx params true s).2 ∧
    (∀ v, Event.loadDataCall v ∉ (handleBulkDelete uc ctx params true s).2) := by
  have hne : ¬ s.selected.length = 0 := by
    simp [hsel]
  have hrun := runDeletes_fail uc (collName params) e bad rest good hgood hbad
  have hmain : handleBulkDelete uc ctx params true s =
      (s, Event.confirmShown ("Are you sure you want to delete " ++
            toString s.selected.length ++ " selected items?") ::
          (good ++ [bad]).map (Event.deleteCall (collName params)) ++
          [Event.errorShown]) := by
    simp [handleBulkDelete, hne, hsel, hrun]
  refine ⟨by rw [hmain], ?_, by rw [hmain], ?_, ?_, ?_⟩
  · rw [hmain]
    simp [hsel]
  · rw [hmain]
    simp [List.count_cons, List.count_append, List.count_eq_zero,
          List.mem_map]
  · rw [hmain]
    simp [List.mem_map]
  · intro v
    rw [hmain]
    simp [List.mem_map]

/-- Witness for C8: three selected ids, the delete use case failing on
the second. -/
theorem c8_bulkDelete_midfail_witness :
    (handleBulkDelete failUC ⟨[]⟩ editParams true bulkState).1 =
      bulkState ∧
    (handleBulkDelete failUC ⟨[]⟩ editParams true bulkState).2.count
      Event.errorShown = 1 ∧
    Event.resetMark ∉
      (handleBulkDelete failUC ⟨[]⟩ editParams true bulkState).2 := by
  have h := c8_bulkDelete_midfail failUC ⟨[]⟩ editParams bulkState
    [Value.num 1] (Value.num 2) [Value.num 3] "boom" rfl (by simp)
    (by intro id hid; simp at hid; subst hid; rfl) rfl
  exact ⟨h.1, h.2.2.2.1, h.2.2.2.2.1⟩

/-- Helper: `loadData` event lists append. -/
theorem loadCalls_append (a b : List Event) :
    loadCalls (a ++ b) = loadCalls a ++ loadCalls b := by
  simp [loadCalls]

/-- Helper: the reset mark contributes no `loadData` invocation. -/
theorem loadCalls_resetMark (evs : List Event) :
    loadCalls (Event.resetMark :: evs) = loadCalls evs := by
  simp [loadCalls]

/-- Helper: every completed `loadData` run records exactly one
invocation, carrying the `search` of the SNAPSHOT its closure reads. -/
theorem loadDataRW_events (uc : UseCases) (ctx : Context)
    (params : Params) (snap live : ListState) :
    loadCalls (loadDataRW uc ctx params snap live).2 = [snap.search] := by
  unfold loadDataRW
  dsimp only
  split
  · simp [loadCalls]
  · split <;> simp [loadCalls]

/-- Helper: `loadData`'s writes never touch `search`. -/
theorem loadDataRW_search (uc : UseCases) (ctx : Context)
    (params : Params) (snap live : ListState) :
    (loadDataRW uc ctx params snap live).1.search = live.search := by
  unfold loadDataRW
  dsimp only
  split
  · rfl
  · split <;> rfl

/-- Helper: the one reload a keystroke's `[loadData]` effect issues
carries that keystroke's value. -/
theorem keystroke_events (uc : UseCases) (ctx : Context) (params : Params)
    (t : Nat) (v : String) (m : ReactSearch) :
    loadCalls (keystroke uc ctx params t v m).2 = [v] := by
  simp [keystroke, loadDataRW_events]

/-- Helper: after a keystroke the committed `search` is its value. -/
theorem keystroke_search (uc : UseCases) (ctx : Context) (params : Params)
    (t : Nat) (v : String) (m : ReactSearch) :
    (keystroke uc ctx params t v m).1.cell.search = v := by
  simp [keystroke, loadDataRW_search]

/-- Helper: a keystroke schedules a timeout 500ms out capturing the
pre-keystroke snapshot. -/
theorem keystroke_timer (uc : UseCases) (ctx : Context) (params : Params)
    (t : Nat) (v : String) (m : ReactSearch) :
    (keystroke uc ctx params t v m).1.timer = some (t + 500, m.cell) :=
  rfl

/-- Helper: a timeout that is not yet due does not fire. -/
theorem timerFire_not_due (uc : UseCases) (ctx : Context)
    (params : Params) (t : Nat) (m : ReactSearch)
    (hp : ∀ d snap, m.timer = some (d, snap) → t < d) :
    timerFire uc ctx params t m = (m, []) := by
  unfold timerFire
  cases hpd : m.timer with
  | none => rfl
  | some p =>
      obtain ⟨d, snap⟩ := p
      have h1 : ¬ d ≤ t := Nat.not_le.mpr (hp d snap hpd)
      simp [h1]

/-- Helper: a due timeout runs `reset()` on the live cell, then the
captured `loadData`, reading the snapshot stored with the timeout. -/
theorem timerFire_due (uc : UseCases) (ctx : Context) (params : Params)
    (T d : Nat) (snap : ListState) (m : ReactSearch)
    (hm : m.timer = some (d, snap)) (h : d ≤ T) :
    timerFire uc ctx params T m =
      (⟨(loadDataRW uc ctx params snap (resetList m.cell)).1, none⟩,
       Event.resetMark ::
         (loadDataRW uc ctx params snap (resetList m.cell)).2) := by
  unfold timerFire
  rw [hm]
  simp [h]

/-- Helper: a burst of keystrokes spaced under 500ms never lets the
timeout fire mid-burst, issues one effect reload per keystroke with that
keystroke's value, leaves `search` at the last value, and leaves one
timeout scheduled 500ms after the last keystroke whose captured snapshot
holds the committed `search` from BEFORE that keystroke. -/
theorem runKeystrokes_burst (uc : UseCases) (ctx : Context)
    (params : Params) :
    ∀ (rest : List (Nat × String)) (t : Nat) (v : String)
      (m : ReactSearch),
      (∀ d snap, m.timer = some (d, snap) → t < d) →
      wellSpaced ((t, v) :: rest) = true →
      loadCalls (runKeystrokes uc ctx params ((t, v) :: rest) m).2 =
        ((t, v) :: rest).map Prod.snd ∧
      (runKeystrokes uc ctx params ((t, v) :: rest) m).1.cell.search =
        (lastCall (t, v) rest).2 ∧
      ∃ snap,
        (runKeystrokes uc ctx params ((t, v) :: rest) m).1.timer =
          some ((lastCall (t, v) rest).1 + 500, snap) ∧
        snap.search = beforeLast m.cell.search ((t, v) :: rest) := by
  intro rest
  induction rest with
  | nil =>
      intro t v m hp _
      have hf := timerFire_not_due uc ctx params t m hp
      have step : runKeystrokes uc ctx params [(t, v)] m =
          ((keystroke uc ctx params t v
              (timerFire uc ctx params t m).1).1,
           (timerFire uc ctx params t m).2 ++
             (keystroke uc ctx params t v
               (timerFire uc ctx params t m).1).2 ++ []) := rfl
      rw [step, hf]
      dsimp only
      refine ⟨?_, ?_, ⟨m.cell, ?_, ?_⟩⟩
      · simp [keystroke_events]
      · simp [keystroke_search, lastCall]
      · simp [keystroke_timer, lastCall]
      · simp [beforeLast]
  | cons c rest ih =>
      intro t v m hp hw
      obtain ⟨t2, v2⟩ := c
      simp only [wellSpaced, Bool.and_eq_true, decide_eq_true_eq] at hw
      obtain ⟨⟨ht12, ht2lt⟩, hw'⟩ := hw
      have hf := timerFire_not_due uc ctx params t m hp
      have hp2 : ∀ d snap,
          (keystroke uc ctx params t v m).1.timer = some (d, snap) →
            t2 < d := by
        intro d snap hd
        rw [keystroke_timer] at hd
        have hpair := Option.some.inj hd
        have h1 : t + 500 = d := congrArg Prod.fst hpair
        omega
      obtain ⟨ihcalls, ihsearch, snap2, ihtimer, ihbefore⟩ :=
        ih t2 v2 (keystroke uc ctx params t v m).1 hp2 hw'
      have step : runKeystrokes uc ctx params
            ((t, v) :: (t2, v2) :: rest) m =
          ((runKeystrokes uc ctx params ((t2, v2) :: rest)
              (keystroke uc ctx params t v
                (timerFire uc ctx params t m).1).1).1,
           (timerFire uc ctx params t m).2 ++
             (keystroke uc ctx params t v
               (timerFire uc ctx params t m).1).2 ++
             (runKeystrokes uc ctx params ((t2, v2) :: rest)
               (keystroke uc ctx params t v
                 (timerFire uc ctx params t m).1).1).2) := rfl
      rw [step, hf]
      dsimp only
      refine ⟨?_, ?_, ⟨snap2, ?_, ?_⟩⟩
      · simp [loadCalls_append, keystroke_events, ihcalls]
      · simpa [lastCall] using ihsearch
      · simpa [lastCall] using ihtimer
      · rw [keystroke_search] at ihbefore
        simpa [beforeLast] using ihbefore

/-- C5 counterexample: the claim says a burst of sub-500ms keystrokes
yields exactly one `loadData`, with the last value.  Typing `"foo"` in
three keystrokes at 0/100/300ms and checking at 800ms, the source issues
(at least) four loads — one per keystroke through the `[loadData]`
effect, plus the timeout fire — and the timeout fire queries with
`"fo"`, the second-to-last value, because its closure captured the
render before the last keystroke. -/
theorem c5_counterexample :
    loadCalls ((runKeystrokes okUC ⟨[]⟩ editParams burst3 reactIdle).2 ++
        (timerFire okUC ⟨[]⟩ editParams 800
          (runKeystrokes okUC ⟨[]⟩ editParams burst3 reactIdle).1).2) =
      ["f", "fo", "foo", "fo"] ∧
    ¬ loadCalls
        ((runKeystrokes okUC ⟨[]⟩ editParams burst3 reactIdle).2 ++
          (timerFire okUC ⟨[]⟩ editParams 800
            (runKeystrokes okUC ⟨[]⟩ editParams burst3 reactIdle).1).2) =
      ["foo"] := by
  refine ⟨rfl, ?_⟩
  decide

/-- C5 amended: for a burst of keystrokes under 500ms apart on an idle
presenter, the debounce slot itself works — each keystroke cancels its
predecessor's timeout and after the quiet period exactly one timeout
fires — but the reload count and value are not as claimed: every
keystroke immediately issues one reload with its own value through the
`[loadData]` effect (a lower bound; the source re-fires that effect on
the loads' own commits too), and the single timeout fire reloads with
the `search` committed BEFORE the last keystroke (the second-to-last
value typed, or the pre-burst value for a single keystroke), because its
closures captured that render's snapshot. -/
theorem c5_debounce_stale_closure (uc : UseCases) (ctx : Context)
    (params : Params) (t1 : Nat) (v1 : String)
    (rest : List (Nat × String)) (m0 : ReactSearch) (T : Nat)
    (h0 : m0.timer = none)
    (hw : wellSpaced ((t1, v1) :: rest) = true)
    (hT : (lastCall (t1, v1) rest).1 + 500 ≤ T) :
    loadCalls (runKeystrokes uc ctx params ((t1, v1) :: rest) m0).2 =
      ((t1, v1) :: rest).map Prod.snd ∧
    loadCalls (timerFire uc ctx params T
        (runKeystrokes uc ctx params ((t1, v1) :: rest) m0).1).2 =
      [beforeLast m0.cell.search ((t1, v1) :: rest)] := by
  obtain ⟨hcalls, -, snap, htimer, hsearch⟩ :=
    runKeystrokes_burst uc ctx params rest t1 v1 m0
      (by intro d snap hd; rw [h0] at hd; cases hd) hw
  refine ⟨hcalls, ?_⟩
  rw [timerFire_due uc ctx params T _ snap _ htimer hT,
      loadCalls_resetMark, loadDataRW_events, hsearch]

/-- Witness for C5 amended: the 0/100/300ms burst checked at 800ms —
one reload per keystroke with its value, then the timeout fire with
`"fo"`. -/
theorem c5_debounce_stale_closure_witness :
    loadCalls (runKeystrokes okUC ⟨[]⟩ editParams burst3 reactIdle).2 =
      ["f", "fo", "foo"] ∧
    loadCalls (timerFire okUC ⟨[]⟩ editParams 800
        (runKeystrokes okUC ⟨[]⟩ editParams burst3 reactIdle).1).2 =
      ["fo"] := by
  have h := c5_debounce_stale_closure okUC ⟨[]⟩ editParams 0 "f"
    [(100, "fo"), (300, "foo")] reactIdle 800 rfl (by decide) (by decide)
  exact ⟨h.1, h.2⟩

/-- Helper: a spread update never produces an empty object. -/
theorem setField_ne_nil (r : Rec) (f : String) (v : Value) :
    setField r f v ≠ [] := by
  cases r with
  | nil => simp [setField]
  | cons p rest =>
      obtain ⟨g, w⟩ := p
      simp only [setField]
      split <;> simp

/-- C4 amended: the invariant `dirty == (change is non-empty)` is
established by every `handleFieldChange` and preserved by the form load
and by a failed `handleSubmit`, but a SUCCESSFUL `handleSubmit` breaks
it: it sets `dirty := false` while leaving `change` exactly as it was
(useFormPresenter.js line 123 clears only `dirty` and `submitting`). -/
theorem c4_dirty_invariant_amended :
    (∀ (f : String) (v : Value) (s : FormState),
      formInv (handleFieldChange f v s)) ∧
    (∀ (uc : UseCases) (params : Params) (s : FormState),
      formInv s → formInv (formLoadData uc params s).1) ∧
    (∀ (uc : UseCases) (ctx : Context) (params : Params) (s : FormState),
      formInv s →
      (∀ r, uc.upsert (collName params) s.object ≠ .ok r) →
      formInv (handleSubmit uc ctx params s).1) ∧
    (∀ (uc : UseCases) (ctx : Context) (params : Params) (s : FormState)
        (r : Rec),
      s.submitting = false →
      (validateForm ctx (collName params) s.object).isValid = true →
      uc.upsert (collName params) s.object = .ok r →
      (handleSubmit uc ctx params s).1.dirty = false ∧
      (handleSubmit uc ctx params s).1.change = s.change) := by
  refine ⟨?_, ?_, ?_, ?_⟩
  · intro f v s
    show (handleFieldChange f v s).dirty =
      !(handleFieldChange f v s).change.isEmpty
    simp [handleFieldChange, List.isEmpty_iff, setField_ne_nil]
  · intro uc params s h
    unfold formLoadData
    cases params.id with
    | none => exact h
    | some id =>
        dsimp only
        split
        · cases huc : uc.getObj (collName params) id <;> simp [formInv] <;>
            exact h
        · exact h
  · intro uc ctx params s h hfail
    unfold handleSubmit
    split
    · exact h
    · dsimp only
      split
      · exact h
      · cases huc : uc.upsert (collName params) s.object with
        | ok r => exact absurd huc (hfail r)
        | error e => simpa [formInv] using h
  · intro uc ctx params s r hsub hval hok
    simp [handleSubmit, hsub, hval, hok]

/-- Witness for C4 amended: the invariant after an edit, after a load,
after a failed submit, and the break pattern after a successful one. -/
theorem c4_dirty_invariant_amended_witness :
    formInv (handleFieldChange "name" (Value.str "New") c4Loaded) ∧
    formInv (formLoadData okUC editParams initialFormState).1 ∧
    formInv (handleSubmit failUC ⟨[]⟩ editParams initialFormState).1 ∧
    ((handleSubmit okUC ⟨[]⟩ editParams
        (handleFieldChange "name" (Value.str "New") c4Loaded)).1.dirty =
      false ∧
     (handleSubmit okUC ⟨[]⟩ editParams
        (handleFieldChange "name" (Value.str "New") c4Loaded)).1.change =
      (handleFieldChange "name" (Value.str "New") c4Loaded).change) := by
  refine ⟨c4_dirty_invariant_amended.1 "name" (Value.str "New") c4Loaded,
    c4_dirty_invariant_amended.2.1 okUC editParams initialFormState rfl,
    c4_dirty_invariant_amended.2.2.1 failUC ⟨[]⟩ editParams
      initialFormState rfl ?_,
    c4_dirty_invariant_amended.2.2.2 okUC ⟨[]⟩ editParams
      (handleFieldChange "name" (Value.str "New") c4Loaded)
      (handleFieldChange "name" (Value.str "New") c4Loaded).object
      rfl rfl rfl⟩
  intro r h
  exact Except.noConfusion h

end Arch
